import Mathlib

/-!
Shallow embedding of the ecommerce analytics dashboard
(`src/analytics.py`, `src/data_loader.py`, `app.py`).

A dataframe of clickstream events is modelled as a `List Event`.
Prices are modelled as exact rationals (`ℚ`); pandas `nunique` is
`(l.map f).dedup.length`; pandas `drop_duplicates` is `List.dedup`.
-/

/-- One row of the event table. Column set and optionality follow the
dtype table of `load_data` (`src/data_loader.py`): `category_code` and
`brand` are nullable strings, the rest are always present. The source
stores `price` as float32; here it is an exact rational, an
idealization that ignores floating-point accumulation rounding. -/
structure Event where
  event_time : Nat
  event_type : String
  product_id : Nat
  category_id : Nat
  category_code : Option String
  brand : Option String
  price : ℚ
  user_id : String
  user_session : String
deriving DecidableEq, Repr

/-- The derived calendar-date column `event_date = event_time.dt.date`
added by `load_data`; modelled as the day number of the timestamp. -/
def Event.event_date (e : Event) : Nat :=
  e.event_time / 86400

/-- Result record of `compute_kpis` (`src/analytics.py`). -/
structure KPIs where
  total_users : Nat
  total_sessions : Nat
  total_revenue : ℚ
  conversion_rate : ℚ
  avg_order_value : ℚ
deriving DecidableEq, Repr

/-- `compute_kpis` (`src/analytics.py` lines 10-34): user/session
counts, revenue over purchase rows, session-level conversion rate and
average order value. -/
def compute_kpis (df : List Event) : KPIs :=
  let total_users := (df.map (fun e => e.user_id)).dedup.length
  let total_sessions := (df.map (fun e => e.user_session)).dedup.length
  let purchases := df.filter (fun e => e.event_type == "purchase")
  let total_revenue : ℚ := (purchases.map (fun e => e.price)).sum
  let sessions_with_purchase := (purchases.map (fun e => e.user_session)).dedup.length
  let conversion_rate : ℚ :=
    if 0 < total_sessions then (sessions_with_purchase : ℚ) / (total_sessions : ℚ) else 0
  let purchaseSessions := (purchases.map (fun e => e.user_session)).dedup
  let avg_order_value : ℚ :=
    if purchases.isEmpty then 0
    else
      (purchaseSessions.map (fun s =>
        ((purchases.filter (fun e => e.user_session == s)).map (fun e => e.price)).sum)).sum
        / (purchaseSessions.length : ℚ)
  { total_users := total_users
    total_sessions := total_sessions
    total_revenue := total_revenue
    conversion_rate := conversion_rate
    avg_order_value := avg_order_value }

/-- The single row returned by `funnel_by_session`. -/
structure FunnelRow where
  sessions_with_view : Nat
  sessions_with_cart : Nat
  sessions_with_purchase : Nat
  view_to_cart_rate : ℚ
  cart_to_purchase_rate : ℚ
deriving DecidableEq, Repr

/-- `df[["user_session", "event_type"]].drop_duplicates()`
(`src/analytics.py` line 151). -/
def sessionTypePairs (df : List Event) : List (String × String) :=
  (df.map (fun e => (e.user_session, e.event_type))).dedup

/-- `tmp.loc[tmp["event_type"] == et, "user_session"].nunique()`
(`src/analytics.py` lines 153-155). -/
def countSessionsWith (tmp : List (String × String)) (et : String) : Nat :=
  ((tmp.filter (fun p => p.2 == et)).map Prod.fst).dedup.length

/-- `funnel_by_session` (`src/analytics.py` lines 138-172): a one-row
table in both branches; on a non-empty input the counts come from the
deduplicated (session, event_type) pairs and each rate falls back to
0.0 when its denominator is zero (Python truthiness test on the
count). -/
def funnel_by_session (df : List Event) : List FunnelRow :=
  if df.isEmpty then
    [{ sessions_with_view := 0
       sessions_with_cart := 0
       sessions_with_purchase := 0
       view_to_cart_rate := 0
       cart_to_purchase_rate := 0 }]
  else
    let tmp := sessionTypePairs df
    let sessions_with_view := countSessionsWith tmp "view"
    let sessions_with_cart := countSessionsWith tmp "cart"
    let sessions_with_purchase := countSessionsWith tmp "purchase"
    let view_to_cart_rate : ℚ :=
      if sessions_with_view ≠ 0
      then (sessions_with_cart : ℚ) / (sessions_with_view : ℚ) else 0
    let cart_to_purchase_rate : ℚ :=
      if sessions_with_cart ≠ 0
      then (sessions_with_purchase : ℚ) / (sessions_with_cart : ℚ) else 0
    [{ sessions_with_view := sessions_with_view
       sessions_with_cart := sessions_with_cart
       sessions_with_purchase := sessions_with_purchase
       view_to_cart_rate := view_to_cart_rate
       cart_to_purchase_rate := cart_to_purchase_rate }]

/-- The event-type filter step of `apply_filters` (`app.py` lines
59-63): a non-empty multiselect keeps the rows whose `event_type` is
in the selection, an empty one applies no filter (`if selected:`). -/
def filterByEventType (selected : List String) (df : List Event) : List Event :=
  if selected.isEmpty then df
  else df.filter (fun e => selected.contains e.event_type)

/-- The category filter step of `apply_filters` (`app.py` lines 66-70):
`isin` on a nullable column is false at NA, and an empty selection
applies no filter (`if chosen_cats:`). -/
def filterByCategory (chosen_cats : List String) (df : List Event) : List Event :=
  if chosen_cats.isEmpty then df
  else df.filter (fun e =>
    match e.category_code with
    | some c => chosen_cats.contains c
    | none => false)

/-- The brand filter step of `apply_filters` (`app.py` lines 73-77). -/
def filterByBrand (chosen_brands : List String) (df : List Event) : List Event :=
  if chosen_brands.isEmpty then df
  else df.filter (fun e =>
    match e.brand with
    | some b => chosen_brands.contains b
    | none => false)

/-- `apply_filters` (`app.py` lines 31-81): date-range mask followed by
the event-type, category and brand steps, in source order. The widget
reads are parameters. -/
def apply_filters (df : List Event) (start_date end_date : Nat)
    (selected chosen_cats chosen_brands : List String) : List Event :=
  let filtered := df.filter (fun e =>
    decide (start_date ≤ e.event_date) && decide (e.event_date ≤ end_date))
  filterByBrand chosen_brands (filterByCategory chosen_cats (filterByEventType selected filtered))

/-- Load-time failure of `load_data`; the only `raise` in
`src/data_loader.py` is the `FileNotFoundError` on line 33. -/
inductive LoadError where
  | fileNotFound : String → LoadError
deriving DecidableEq, Repr

/-- `TARGET_ROWS` (`src/data_loader.py` line 24). -/
def TARGET_ROWS : Nat := 50000

/-- `.sort_values("event_time")` (`src/data_loader.py` line 54). -/
def sortByEventTime (df : List Event) : List Event :=
  df.mergeSort (fun a b => a.event_time ≤ b.event_time)

/-- `df.sample(n=n, random_state=42)` (`src/data_loader.py` line 54)
returns exactly `n` of the rows; which rows the seeded generator picks
is outside the embedding, so the sample is modelled as the first `n`
rows. Only the row count matters to the claims. -/
def sampleRows (df : List Event) (n : Nat) : List Event :=
  df.take n

/-- `load_data` (`src/data_loader.py` lines 27-63). The file system
and the CSV reader are parameters: `fileExists` is
`DATA_PATH.exists()` and `parsed` is the row list produced by
`pd.read_csv`. The dtype casts and the derived `event_date` column are
identities here (`Event.event_date` is a derived field). -/
def load_data (fileExists : Bool) (parsed : List Event) :
    Except LoadError (List Event) :=
  if !fileExists then
    .error (.fileNotFound "CSV file not found at: DATA_PATH")
  else
    let df := parsed
    let df := if TARGET_ROWS < df.length
              then sortByEventTime (sampleRows df TARGET_ROWS)
              else df
    .ok df

/-! ## Specification-side characterizations -/

/-- The set of distinct `user_session` values having at least one
event of type `et` (the spec's reading of the funnel counts). -/
def sessionsHaving (df : List Event) (et : String) : Finset String :=
  (df.map (fun e => e.user_session)).toFinset.filter
    (fun s => ∃ e ∈ df, e.user_session = s ∧ e.event_type = et)

/-- The set of distinct (user_session, event_type) pairs of the table. -/
def pairFinset (df : List Event) : Finset (String × String) :=
  (df.map (fun e => (e.user_session, e.event_type))).toFinset

lemma mem_sessionsHaving {df : List Event} {et s : String} :
    s ∈ sessionsHaving df et ↔ (s, et) ∈ pairFinset df := by
  simp only [sessionsHaving, pairFinset, Finset.mem_filter, List.mem_toFinset, List.mem_map]
  constructor
  · rintro ⟨-, e, he, rfl, rfl⟩
    exact ⟨e, he, rfl⟩
  · rintro ⟨e, he, heq⟩
    obtain ⟨h1, h2⟩ := Prod.mk.injEq .. ▸ heq
    exact ⟨⟨e, he, h1⟩, e, he, h1, h2⟩

/-- The deduplicate-pairs-then-count pipeline of `funnel_by_session`
computes exactly the number of distinct sessions having at least one
event of the given type. -/
lemma countSessionsWith_eq (df : List Event) (et : String) :
    countSessionsWith (sessionTypePairs df) et = (sessionsHaving df et).card := by
  rw [countSessionsWith, ← List.card_toFinset]
  congr 1
  ext s
  simp only [sessionsHaving, sessionTypePairs, List.mem_toFinset, List.mem_map,
    List.mem_filter, List.mem_dedup, Finset.mem_filter, beq_iff_eq]
  constructor
  · rintro ⟨⟨a, b⟩, ⟨⟨e, he, heq⟩, hb⟩, ha⟩
    obtain ⟨h1, h2⟩ := Prod.mk.injEq .. ▸ heq
    subst ha hb
    exact ⟨⟨e, he, h1⟩, e, he, h1, h2⟩
  · rintro ⟨-, e, he, rfl, rfl⟩
    exact ⟨(e.user_session, e.event_type), ⟨⟨e, he, rfl⟩, rfl⟩, rfl⟩

lemma sessionsHaving_congr {df₁ df₂ : List Event} (h : pairFinset df₁ = pairFinset df₂)
    (et : String) : sessionsHaving df₁ et = sessionsHaving df₂ et := by
  ext s
  rw [mem_sessionsHaving, mem_sessionsHaving, h]

lemma pairFinset_eq_empty_iff {df : List Event} : pairFinset df = ∅ ↔ df = [] := by
  simp [pairFinset]

lemma funnel_by_session_eq (df : List Event) (hne : df ≠ []) :
    funnel_by_session df =
      [{ sessions_with_view := (sessionsHaving df "view").card,
         sessions_with_cart := (sessionsHaving df "cart").card,
         sessions_with_purchase := (sessionsHaving df "purchase").card,
         view_to_cart_rate :=
           if 0 < (sessionsHaving df "view").card
           then ((sessionsHaving df "cart").card : ℚ) / ((sessionsHaving df "view").card : ℚ)
           else 0,
         cart_to_purchase_rate :=
           if 0 < (sessionsHaving df "cart").card
           then ((sessionsHaving df "purchase").card : ℚ) / ((sessionsHaving df "cart").card : ℚ)
           else 0 }] := by
  have hne' : ¬ df.isEmpty := by simpa using hne
  simp only [funnel_by_session, hne', Bool.false_eq_true, if_false, countSessionsWith_eq,
    Nat.pos_iff_ne_zero]

def mkE (et s : String) : Event :=
  { event_time := 0, event_type := et, product_id := 0, category_id := 0,
    category_code := none, brand := none, price := 0, user_id := "u", user_session := s }

/-- Claim C1: the funnel ordering `sessions_with_purchase ≤
sessions_with_cart ≤ sessions_with_view` is NOT guaranteed by
`funnel_by_session`: a non-empty event table exists (a session with a
cart event but no view event) whose returned row violates at least one
of the two inequalities. -/
theorem funnel_ordering_not_guaranteed :
    ∃ df : List Event, df ≠ [] ∧ ∀ row ∈ funnel_by_session df,
      ¬(row.sessions_with_purchase ≤ row.sessions_with_cart ∧
        row.sessions_with_cart ≤ row.sessions_with_view) := by
  refine ⟨[mkE "cart" "A"], by decide, ?_⟩
  decide

/-- Claim C5: on every non-empty event table, `funnel_by_session`
returns a single row whose three counts are the numbers of distinct
`user_session` values having at least one view / cart / purchase
event, with `view_to_cart_rate = cart / view` when `view > 0` (else 0)
and `cart_to_purchase_rate = purchase / cart` when `cart > 0`
(else 0). -/
theorem funnel_by_session_counts (df : List Event) (hne : df ≠ []) :
    funnel_by_session df =
      [{ sessions_with_view := (sessionsHaving df "view").card,
         sessions_with_cart := (sessionsHaving df "cart").card,
         sessions_with_purchase := (sessionsHaving df "purchase").card,
         view_to_cart_rate :=
           if 0 < (sessionsHaving df "view").card
           then ((sessionsHaving df "cart").card : ℚ) / ((sessionsHaving df "view").card : ℚ)
           else 0,
         cart_to_purchase_rate :=
           if 0 < (sessionsHaving df "cart").card
           then ((sessionsHaving df "purchase").card : ℚ) / ((sessionsHaving df "cart").card : ℚ)
           else 0 }] :=
  funnel_by_session_eq df hne

theorem funnel_by_session_counts_witness :
    ([mkE "view" "A"] : List Event) ≠ [] ∧
    funnel_by_session [mkE "view" "A"] =
      [{ sessions_with_view := (sessionsHaving [mkE "view" "A"] "view").card,
         sessions_with_cart := (sessionsHaving [mkE "view" "A"] "cart").card,
         sessions_with_purchase := (sessionsHaving [mkE "view" "A"] "purchase").card,
         view_to_cart_rate :=
           if 0 < (sessionsHaving [mkE "view" "A"] "view").card
           then ((sessionsHaving [mkE "view" "A"] "cart").card : ℚ)
             / ((sessionsHaving [mkE "view" "A"] "view").card : ℚ)
           else 0,
         cart_to_purchase_rate :=
           if 0 < (sessionsHaving [mkE "view" "A"] "cart").card
           then ((sessionsHaving [mkE "view" "A"] "purchase").card : ℚ)
             / ((sessionsHaving [mkE "view" "A"] "cart").card : ℚ)
           else 0 }] :=
  ⟨by decide, funnel_by_session_counts [mkE "view" "A"] (by decide)⟩

/-- The guard of the empty-result branch of the funnel tab
(`app.py` lines 275-277): the message shows iff `funnel_df.empty`. -/
def funnelShowsEmptyMessage (df : List Event) : Bool :=
  (funnel_by_session df).isEmpty

/-- Claim C9: `funnel_by_session` always returns exactly one row; on
the empty table that row has all three counts 0 and both rates 0.0, and
the empty-result guard of the funnel tab in the app never fires. -/
theorem funnel_by_session_never_empty :
    (∀ df : List Event, (funnel_by_session df).length = 1) ∧
    funnel_by_session [] =
      [{ sessions_with_view := 0, sessions_with_cart := 0, sessions_with_purchase := 0,
         view_to_cart_rate := 0, cart_to_purchase_rate := 0 }] ∧
    (∀ df : List Event, funnelShowsEmptyMessage df = false) := by
  have hlen : ∀ df : List Event, (funnel_by_session df).length = 1 := by
    intro df
    unfold funnel_by_session
    split <;> rfl
  refine ⟨hlen, rfl, fun df => ?_⟩
  have := hlen df
  rw [funnelShowsEmptyMessage]
  cases hfs : funnel_by_session df with
  | nil => rw [hfs] at this; simp at this
  | cons a tl => rfl

lemma pairFinset_append_self {df : List Event} {e : Event} (he : e ∈ df) :
    pairFinset (df ++ [e]) = pairFinset df := by
  ext p
  simp only [pairFinset, List.mem_toFinset, List.mem_map, List.mem_append, List.mem_singleton]
  constructor
  · rintro ⟨a, ha | rfl, rfl⟩
    · exact ⟨a, ha, rfl⟩
    · exact ⟨a, he, rfl⟩
  · rintro ⟨a, ha, rfl⟩
    exact ⟨a, Or.inl ha, rfl⟩

/-- Claim C6: `funnel_by_session` deduplicates events — its output
depends only on the set of distinct (user_session, event_type) pairs
of the input, and appending an exact duplicate of an existing row
leaves the returned counts and rates unchanged. -/
theorem funnel_by_session_dedup_invariant :
    (∀ df₁ df₂ : List Event, pairFinset df₁ = pairFinset df₂ →
        funnel_by_session df₁ = funnel_by_session df₂) ∧
    (∀ (df : List Event) (e : Event), e ∈ df →
        funnel_by_session (df ++ [e]) = funnel_by_session df) := by
  have main : ∀ df₁ df₂ : List Event, pairFinset df₁ = pairFinset df₂ →
      funnel_by_session df₁ = funnel_by_session df₂ := by
    intro df₁ df₂ h
    by_cases h1 : df₁ = []
    · have h2 : df₂ = [] := by
        rw [← pairFinset_eq_empty_iff, ← h, pairFinset_eq_empty_iff]
        exact h1
      subst h1; subst h2; rfl
    · have h2 : df₂ ≠ [] := by
        intro hc
        apply h1
        rw [← pairFinset_eq_empty_iff, h, pairFinset_eq_empty_iff]
        exact hc
      rw [funnel_by_session_eq df₁ h1, funnel_by_session_eq df₂ h2,
        sessionsHaving_congr h "view", sessionsHaving_congr h "cart",
        sessionsHaving_congr h "purchase"]
  exact ⟨main, fun df e he => main _ _ (pairFinset_append_self he)⟩

theorem funnel_by_session_dedup_invariant_witness :
    funnel_by_session ([mkE "view" "A"] ++ [mkE "view" "A"]) =
      funnel_by_session [mkE "view" "A"] :=
  funnel_by_session_dedup_invariant.2 [mkE "view" "A"] (mkE "view" "A") (by decide)

lemma nunique_filter_le (df : List Event) (p : Event → Bool) (f : Event → String) :
    ((df.filter p).map f).dedup.length ≤ (df.map f).dedup.length := by
  rw [← List.card_toFinset, ← List.card_toFinset]
  apply Finset.card_le_card
  intro s hs
  simp only [List.mem_toFinset, List.mem_map] at hs ⊢
  obtain ⟨e, he, rfl⟩ := hs
  exact ⟨e, List.mem_of_mem_filter he, rfl⟩

lemma compute_kpis_total_sessions (df : List Event) :
    (compute_kpis df).total_sessions = (df.map (fun e => e.user_session)).dedup.length := rfl

lemma compute_kpis_conversion_rate (df : List Event) :
    (compute_kpis df).conversion_rate =
      if 0 < (df.map (fun e => e.user_session)).dedup.length
      then (((df.filter (fun e => e.event_type == "purchase")).map
              (fun e => e.user_session)).dedup.length : ℚ)
            / ((df.map (fun e => e.user_session)).dedup.length : ℚ)
      else 0 := rfl

def dfViewCart2 : List Event := [mkE "view" "A", mkE "cart" "A", mkE "cart" "B"]

/-- Claim C2 counterexample: on the table with a view event in session
A and cart events in sessions A and B, `funnel_by_session` has a
positive denominator (`sessions_with_view = 1`) yet returns
`view_to_cart_rate = 2`, outside [0,1]. -/
theorem conversion_rate_range_counterexample :
    (funnel_by_session dfViewCart2).map FunnelRow.sessions_with_view = [1] ∧
    (funnel_by_session dfViewCart2).map FunnelRow.view_to_cart_rate = [2] ∧
    ¬ ((2 : ℚ) ≤ 1) := by
  have hv : countSessionsWith (sessionTypePairs dfViewCart2) "view" = 1 := by decide
  have hc : countSessionsWith (sessionTypePairs dfViewCart2) "cart" = 2 := by decide
  have hne : ¬ dfViewCart2.isEmpty := by decide
  refine ⟨?_, ?_, by norm_num⟩ <;> simp [funnel_by_session, hne, hv, hc]

/-- Claim C2 (amended): the `conversion_rate` of `compute_kpis` lies in
[0,1] when `total_sessions > 0` and is 0 when `total_sessions = 0`; the
two rates of `funnel_by_session` are nonnegative and are 0 when their
denominator is 0, but are not bounded by 1. -/
theorem conversion_rates_amended (df : List Event) :
    (0 < (compute_kpis df).total_sessions →
        0 ≤ (compute_kpis df).conversion_rate ∧ (compute_kpis df).conversion_rate ≤ 1) ∧
    ((compute_kpis df).total_sessions = 0 → (compute_kpis df).conversion_rate = 0) ∧
    (∀ row ∈ funnel_by_session df,
        0 ≤ row.view_to_cart_rate ∧ 0 ≤ row.cart_to_purchase_rate ∧
        (row.sessions_with_view = 0 → row.view_to_cart_rate = 0) ∧
        (row.sessions_with_cart = 0 → row.cart_to_purchase_rate = 0)) := by
  refine ⟨?_, ?_, ?_⟩
  · intro h
    rw [compute_kpis_total_sessions] at h
    rw [compute_kpis_conversion_rate, if_pos h]
    refine ⟨by positivity, ?_⟩
    rw [div_le_one (by exact_mod_cast h)]
    exact_mod_cast nunique_filter_le df _ _
  · intro h
    rw [compute_kpis_total_sessions] at h
    rw [compute_kpis_conversion_rate, if_neg (by omega)]
  · intro row hrow
    by_cases hdf : df.isEmpty
    · simp only [funnel_by_session, hdf, if_true, List.mem_singleton] at hrow
      subst hrow
      norm_num
    · simp only [funnel_by_session, hdf, Bool.false_eq_true, if_false,
        List.mem_singleton] at hrow
      subst hrow
      refine ⟨?_, ?_, ?_, ?_⟩
      · dsimp only
        split
        · positivity
        · exact le_refl 0
      · dsimp only
        split
        · positivity
        · exact le_refl 0
      · intro h
        simp only at h ⊢
        simp [h]
      · intro h
        simp only at h ⊢
        simp [h]

def dfPurchase : List Event := [mkE "purchase" "A"]

theorem conversion_rates_amended_witness :
    0 < (compute_kpis dfPurchase).total_sessions ∧
    (0 ≤ (compute_kpis dfPurchase).conversion_rate ∧
      (compute_kpis dfPurchase).conversion_rate ≤ 1) :=
  ⟨by decide, (conversion_rates_amended dfPurchase).1 (by decide)⟩

/-- Claim C4: with an empty selected list, each of the category, brand
and event-type filter steps of `apply_filters` is the identity on the
event table. -/
theorem empty_selection_no_filter (df : List Event) :
    filterByCategory [] df = df ∧ filterByBrand [] df = df ∧ filterByEventType [] df = df :=
  ⟨rfl, rfl, rfl⟩

/-- Claim C8: `load_data` produces a file-not-found error iff the CSV
file does not exist; when it exists (and the CSV reader yields rows)
`load_data` returns a table without raising, and every load-time error
is a file-not-found error. -/
theorem load_data_error_iff (fileExists : Bool) (parsed : List Event) :
    ((∃ msg, load_data fileExists parsed = .error (.fileNotFound msg)) ↔ fileExists = false) ∧
    (fileExists = true → ∃ df, load_data fileExists parsed = .ok df) ∧
    (∀ err, load_data fileExists parsed = .error err → ∃ msg, err = .fileNotFound msg) := by
  cases fileExists
  · refine ⟨⟨fun _ => rfl, fun _ => ⟨"CSV file not found at: DATA_PATH", rfl⟩⟩, by simp, ?_⟩
    intro err herr
    cases err with
    | fileNotFound msg => exact ⟨msg, rfl⟩
  · refine ⟨⟨?_, by simp⟩, fun _ => ⟨_, rfl⟩, ?_⟩
    · rintro ⟨msg, hmsg⟩
      exact absurd hmsg (by simp [load_data])
    · intro err herr
      exact absurd herr (by simp [load_data])

theorem load_data_error_iff_witness :
    (∃ msg, load_data false [] = .error (.fileNotFound msg)) ∧
    (∃ df, load_data true [] = .ok df) :=
  ⟨(load_data_error_iff false []).1.mpr rfl, (load_data_error_iff true []).2.1 rfl⟩

/-- Claim C10: the table returned by `load_data` has at most
`TARGET_ROWS = 50000` rows: when the parsed CSV has more rows it is
downsampled to exactly 50000, otherwise its row count is preserved. -/
theorem load_data_row_cap (parsed : List Event) :
    ∃ df, load_data true parsed = .ok df ∧
      df.length ≤ TARGET_ROWS ∧
      df.length = min parsed.length TARGET_ROWS ∧
      (TARGET_ROWS < parsed.length → df.length = TARGET_ROWS) ∧
      (parsed.length ≤ TARGET_ROWS → df.length = parsed.length) := by
  have hlen : (if TARGET_ROWS < parsed.length
      then sortByEventTime (sampleRows parsed TARGET_ROWS) else parsed).length
      = min parsed.length TARGET_ROWS := by
    split
    · rw [sortByEventTime, List.length_mergeSort, sampleRows, List.length_take]
      omega
    · omega
  refine ⟨_, rfl, ?_, hlen, ?_, ?_⟩ <;> rw [hlen] <;> omega

theorem load_data_row_cap_witness :
    ∃ df, load_data true [] = .ok df ∧
      df.length ≤ TARGET_ROWS ∧
      df.length = min ([] : List Event).length TARGET_ROWS ∧
      (TARGET_ROWS < ([] : List Event).length → df.length = TARGET_ROWS) ∧
      (([] : List Event).length ≤ TARGET_ROWS → df.length = ([] : List Event).length) :=
  load_data_row_cap []
